import Mathlib

/-!
Verification development for the mindx-voice backend.

Shallow embedding of the AI-service integration layer
(src/ai_services: gemini_service.py, whisper_service.py, exceptions.py,
models.py, config.py, views.py) and of the conversation models and
viewsets (src/conversations: models.py, views.py, serializers.py).

Conventions of the embedding:
- Python strings are Lean String; Python `x in s` substring tests are
  hasSubstr; Python `.lower()` is String.toLower.
- Raising an exception is modelled with Except or with a total function
  returning the raised error value; a function whose every branch raises
  is a total function into the error type.
- Machine integers do not occur (Python ints are unbounded); sizes and
  counts are Nat.
- Wall-clock time (latency_ms) and the JSON wire encoding produced by the
  standard json library are abstracted: SSE events carry the dictionary
  payload as a structured value rather than its serialized bytes.
-/

namespace MindxVoice

/-! ## String utilities: Python substring containment -/

/-- Does the character list s contain pat as a contiguous sublist?
Models the Python expression pat in s on strings. -/
def hasSubAux (pat : List Char) : List Char → Bool
  | [] => pat.isEmpty
  | c :: rest => pat.isPrefixOf (c :: rest) || hasSubAux pat rest

/-- Python substring containment: pat in s. -/
def hasSubstr (s pat : String) : Bool :=
  hasSubAux pat.toList s.toList

/-! ## src/ai_services/exceptions.py

The module defines AIServiceError and nine subclasses, each fixing a
code string and a default message. -/

/-- The concrete exception class of an AIServiceError value
(exceptions.py lines 6-87). -/
inductive AIErrClass where
  | base
  | apiKey
  | rateLimit
  | quotaExceeded
  | modelErr
  | contentFilter
  | timeoutErr
  | networkErr
  | invalidRequest
  | generation
  deriving DecidableEq, Repr

/-- The Python class name of each exception class. -/
def className : AIErrClass → String
  | .base => "AIServiceError"
  | .apiKey => "APIKeyError"
  | .rateLimit => "RateLimitError"
  | .quotaExceeded => "QuotaExceededError"
  | .modelErr => "ModelError"
  | .contentFilter => "ContentFilterError"
  | .timeoutErr => "TimeoutError"
  | .networkErr => "NetworkError"
  | .invalidRequest => "InvalidRequestError"
  | .generation => "GenerationError"

/-- The code string each subclass passes to AIServiceError.__init__. -/
def classCode : AIErrClass → String
  | .base => "AI_ERROR"
  | .apiKey => "API_KEY_ERROR"
  | .rateLimit => "RATE_LIMIT_ERROR"
  | .quotaExceeded => "QUOTA_EXCEEDED"
  | .modelErr => "MODEL_ERROR"
  | .contentFilter => "CONTENT_FILTERED"
  | .timeoutErr => "TIMEOUT_ERROR"
  | .networkErr => "NETWORK_ERROR"
  | .invalidRequest => "INVALID_REQUEST"
  | .generation => "GENERATION_ERROR"

/-- The default message of each subclass constructor. -/
def defaultMsg : AIErrClass → String
  | .base => ""
  | .apiKey => "API key không hợp lệ hoặc chưa được cấu hình."
  | .rateLimit => "Đã vượt quá giới hạn request. Vui lòng thử lại sau."
  | .quotaExceeded => "Đã hết quota API. Vui lòng liên hệ admin."
  | .modelErr => "Lỗi model AI. Vui lòng thử lại sau."
  | .contentFilter => "Nội dung bị chặn bởi bộ lọc an toàn."
  | .timeoutErr => "Request đã hết thời gian chờ. Vui lòng thử lại."
  | .networkErr => "Lỗi kết nối mạng. Vui lòng kiểm tra kết nối."
  | .invalidRequest => "Request không hợp lệ."
  | .generation => "Lỗi trong quá trình tạo nội dung."

/-- An AIServiceError instance: its class and its message. -/
structure AIErr where
  cls : AIErrClass
  message : String
  deriving DecidableEq, Repr

/-- The dictionary produced by AIServiceError.to_dict: the code and the
message (the details field is always empty in the code paths modelled
here). -/
structure ErrDict where
  code : String
  message : String
  deriving DecidableEq, Repr

/-- AIServiceError.to_dict (exceptions.py lines 15-23). -/
def toErrorDict (e : AIErr) : ErrDict :=
  ⟨classCode e.cls, e.message⟩

/-- The exception class names the module src/ai_services/exceptions.py
actually defines, in source order. -/
def exceptionsModuleDefines : List String :=
  ["AIServiceError", "APIKeyError", "RateLimitError", "QuotaExceededError",
   "ModelError", "ContentFilterError", "TimeoutError", "NetworkError",
   "InvalidRequestError", "GenerationError"]

/-! ## Google API exceptions (google.api_core.exceptions)

GeminiService._handle_error dispatches on the concrete vendor exception
class; the classes it tests are pairwise disjoint in the vendor library,
so they are modelled as disjoint constructors; otherExc stands for any
exception matching none of the tested classes. -/

/-- Which vendor exception class an error instance belongs to. -/
inductive GoogleExcKind where
  | invalidArgument
  | permissionDenied
  | resourceExhausted
  | deadlineExceeded
  | serviceUnavailable
  | internalServerError
  | otherExc
  deriving DecidableEq, Repr

/-- A vendor exception: its class and str(error). -/
structure GoogleExc where
  kind : GoogleExcKind
  msg : String
  deriving DecidableEq, Repr

/-- GeminiService._handle_error (gemini_service.py lines 117-147).
Every branch raises, so the embedding is a total function from the
caught exception to the raised AIServiceError. -/
def handle_error (e : GoogleExc) : AIErr :=
  let s := e.msg.toLower
  match e.kind with
  | .invalidArgument =>
      if hasSubstr s "api key" || hasSubstr s "api_key" then
        ⟨.apiKey, defaultMsg .apiKey⟩
      else
        ⟨.generation, "Request không hợp lệ: " ++ e.msg⟩
  | .permissionDenied => ⟨.apiKey, "API key không có quyền truy cập."⟩
  | .resourceExhausted =>
      if hasSubstr s "quota" then
        ⟨.quotaExceeded, defaultMsg .quotaExceeded⟩
      else
        ⟨.rateLimit, defaultMsg .rateLimit⟩
  | .deadlineExceeded => ⟨.timeoutErr, defaultMsg .timeoutErr⟩
  | .serviceUnavailable => ⟨.networkErr, "Dịch vụ Gemini tạm thời không khả dụng."⟩
  | .internalServerError => ⟨.generation, "Lỗi server Gemini. Vui lòng thử lại."⟩
  | .otherExc =>
      if hasSubstr s "blocked" || hasSubstr s "safety" then
        ⟨.contentFilter, defaultMsg .contentFilter⟩
      else
        ⟨.generation, "Lỗi không xác định: " ++ e.msg⟩

/-- The exception-class mapping exactly as claim C2 words it: which
AIServiceError subclass _handle_error raises, determined by the vendor
exception class and by substring tests on the error message (the
handler performs those tests on the lower-cased message). -/
def errClassSpec (e : GoogleExc) : AIErrClass :=
  let s := e.msg.toLower
  match e.kind with
  | .invalidArgument =>
      if hasSubstr s "api key" || hasSubstr s "api_key" then .apiKey else .generation
  | .permissionDenied => .apiKey
  | .resourceExhausted =>
      if hasSubstr s "quota" then .quotaExceeded else .rateLimit
  | .deadlineExceeded => .timeoutErr
  | .serviceUnavailable => .networkErr
  | .internalServerError => .generation
  | .otherExc =>
      if hasSubstr s "blocked" || hasSubstr s "safety" then .contentFilter else .generation

/-- Claim C2: _handle_error never returns normally (it is total into the
error type) and the class of the single AIServiceError it raises is
exactly the one the claim enumerates for each vendor exception class and
message. -/
theorem handle_error_class_correct (e : GoogleExc) :
    (handle_error e).cls = errClassSpec e := by
  cases e with
  | mk k m =>
      cases k <;> simp only [handle_error, errClassSpec] <;> split <;> rfl

/-! ## src/ai_services/models.py : value objects -/

/-- MessageRole (models.py lines 10-14). -/
inductive MessageRole where
  | user
  | assistant
  | system
  deriving DecidableEq, Repr

/-- The string value of each role member. -/
def MessageRole.value : MessageRole → String
  | .user => "user"
  | .assistant => "assistant"
  | .system => "system"

/-- ChatMessage (models.py lines 17-22). -/
structure ChatMessage where
  role : MessageRole
  content : String
  deriving DecidableEq, Repr

/-- A message in Gemini API format: the role string and the text of the
single part (to_gemini_format builds parts as one text entry). -/
structure GeminiMessage where
  role : String
  text : String
  deriving DecidableEq, Repr

/-- ChatMessage.to_gemini_format (models.py lines 24-31): assistant maps
to the role string model, the other roles keep their own value. -/
def to_gemini_format (m : ChatMessage) : GeminiMessage :=
  ⟨if m.role = MessageRole.assistant then "model" else m.role.value, m.content⟩

/-- PersonaContext (models.py lines 40-53). -/
structure PersonaContext where
  name : String
  personality_type : String
  description : String
  background : String
  communication_style : String
  common_concerns : String
  child_name : String
  child_age : Option Nat
  child_grade : String
  system_prompt : String
  deriving DecidableEq, Repr

/-- PersonaContext.build_system_message (models.py lines 55-90): the
explicit system_prompt when non-empty, otherwise the auto-generated
prompt assembled from the persona fields (Python truthiness: empty
strings and a zero or absent child_age skip their part). -/
def build_system_message (p : PersonaContext) : String :=
  if p.system_prompt ≠ "" then p.system_prompt
  else
    let parts : List String :=
      ["Bạn đang đóng vai một phụ huynh tên là " ++ p.name ++ ".",
       "Tính cách: " ++ p.personality_type ++ ".",
       "Mô tả: " ++ p.description ++ "."]
      ++ (if p.background ≠ "" then ["Hoàn cảnh: " ++ p.background ++ "."] else [])
      ++ (if p.communication_style ≠ "" then
            ["Phong cách giao tiếp: " ++ p.communication_style ++ "."] else [])
      ++ (if p.common_concerns ≠ "" then
            ["Các mối quan tâm: " ++ p.common_concerns ++ "."] else [])
      ++ (if p.child_name ≠ "" then
            [("Con của bạn tên là " ++ p.child_name)
              ++ (match p.child_age with
                  | some a => if a ≠ 0 then ", " ++ toString a ++ " tuổi" else ""
                  | none => "")
              ++ (if p.child_grade ≠ "" then ", học lớp " ++ p.child_grade else "")
              ++ "."]
          else [])
      ++ ["",
          "Hãy trả lời như một phụ huynh thực sự, với ngôn ngữ tự nhiên và phù hợp với tính cách đã được gán.",
          "Luôn duy trì vai diễn và không phá vỡ nhân vật."]
    String.intercalate "\n" parts

/-- GenerationRequest (models.py lines 132-140), restricted to the
fields the verified code paths read (params and the stream flag are
passed through unread by the history construction). -/
structure GenerationRequest where
  prompt : String
  history : List ChatMessage
  persona : Option PersonaContext
  deriving Repr

/-- GenerationRequest.get_full_history (models.py lines 142-158): the
persona system message when a persona exists, then the caller history,
then the prompt as a user message. -/
def get_full_history (req : GenerationRequest) : List ChatMessage :=
  (match req.persona with
   | some p => [⟨MessageRole.system, build_system_message p⟩]
   | none => []) ++ req.history ++ [⟨MessageRole.user, req.prompt⟩]

/-- GenerationResponse (models.py lines 161-171), without the latency
and cache metadata, which no claim concerns (latency is wall-clock
time). -/
structure GenerationResponse where
  content : String
  finish_reason : String
  tokens_used : Nat
  model : String
  deriving DecidableEq, Repr

/-- StreamChunk (models.py lines 186-192). -/
structure StreamChunk where
  content : String
  is_final : Bool
  tokens_used : Nat
  deriving DecidableEq, Repr

/-! ## src/ai_services/gemini_service.py -/

/-- GeminiConfig (config.py lines 12-36), restricted to the fields the
generation path reads. -/
structure GeminiConfig where
  api_key : String
  model : String
  deriving DecidableEq, Repr

/-- GeminiService._build_chat_history (gemini_service.py lines 98-108):
the loop skips system-role messages and converts the rest. -/
def build_chat_history : List ChatMessage → List GeminiMessage
  | [] => []
  | m :: rest =>
      if m.role = MessageRole.system then build_chat_history rest
      else to_gemini_format m :: build_chat_history rest

/-- An exception crossing the body of generate_reply: either a vendor
exception or an already-translated AIServiceError. -/
inductive Exc where
  | google (g : GoogleExc)
  | ai (e : AIErr)
  deriving DecidableEq, Repr

/-- The except clauses of generate_reply and generate_reply_stream
(gemini_service.py lines 249-253 and 336-340): an AIServiceError is
re-raised unchanged, anything else goes through _handle_error. -/
def excToAIErr : Exc → AIErr
  | .google g => handle_error g
  | .ai e => e

/-- The retry predicate of the tenacity decorator (gemini_service.py
lines 152-156): retry_if_exception_type on ServiceUnavailable,
DeadlineExceeded and InternalServerError. -/
def isRetryTarget : Exc → Bool
  | .google g =>
      match g.kind with
      | .serviceUnavailable => true
      | .deadlineExceeded => true
      | .internalServerError => true
      | _ => false
  | .ai _ => false

/-- The vendor response object returned by chat.send_message: its text,
its usage_metadata total_token_count when present, and whether
prompt_feedback reports a block reason. -/
structure VendorResponse where
  text : String
  usage : Option Nat
  blockReason : Bool
  deriving DecidableEq, Repr

/-- The response extraction of generate_reply (gemini_service.py lines
222-247): content from response.text, token count from usage_metadata
(0 when absent), finish_reason stop unless prompt_feedback reports a
block reason, model from the configuration. -/
def extractResponse (cfg : GeminiConfig) (r : VendorResponse) : GenerationResponse :=
  { content := r.text
    finish_reason := if r.blockReason then "content_filter" else "stop"
    tokens_used := r.usage.getD 0
    model := cfg.model }

/-- One attempt of the body of generate_reply (gemini_service.py lines
183-253), parameterized by the outcome of the vendor call: a success is
extracted, an AIServiceError is re-raised, and every other exception is
translated by _handle_error before it leaves the function. -/
def generateReplyAttempt (cfg : GeminiConfig)
    (outcome : Except Exc VendorResponse) : Except Exc GenerationResponse :=
  match outcome with
  | .ok r => .ok (extractResponse cfg r)
  | .error (.ai e) => .error (.ai e)
  | .error (.google g) => .error (.ai (handle_error g))

/-- The tenacity retry loop with stop_after_attempt: run the attempt;
on an exception matching the retry predicate, retry while attempts
remain, otherwise propagate. Returns the result and the number of
attempts made. -/
def retryGo (f : Nat → Except Exc GenerationResponse) (attempt : Nat) :
    Nat → Except Exc GenerationResponse × Nat
  | 0 => (f attempt, attempt)
  | fuel + 1 =>
      match f attempt with
      | .ok a => (.ok a, attempt)
      | .error e =>
          if isRetryTarget e && fuel != 0 then retryGo f (attempt + 1) fuel
          else (.error e, attempt)

/-- generate_reply under its retry decorator (gemini_service.py lines
149-160): stop_after_attempt(3) on the decorated body, with the vendor
call outcome of each attempt supplied by the environment. -/
def tenacity_generate_reply (cfg : GeminiConfig)
    (vendor : Nat → Except Exc VendorResponse) :
    Except Exc GenerationResponse × Nat :=
  retryGo (fun n => generateReplyAttempt cfg (vendor n)) 1 3

/-- The body of generate_reply only ever raises already-translated
AIServiceError values, never one of the vendor exception types the
retry predicate tests. -/
theorem generateReplyAttempt_not_retryable (cfg : GeminiConfig)
    (o : Except Exc VendorResponse) (e : Exc)
    (h : generateReplyAttempt cfg o = .error e) : isRetryTarget e = false := by
  match o with
  | .ok r => simp [generateReplyAttempt] at h
  | .error (.ai e0) =>
      simp [generateReplyAttempt] at h
      subst h; rfl
  | .error (.google g) =>
      simp [generateReplyAttempt] at h
      subst h; rfl

/-- Consequently the decorated generate_reply always performs exactly
one attempt, whatever the vendor does. -/
theorem tenacity_generate_reply_attempts_one (cfg : GeminiConfig)
    (vendor : Nat → Except Exc VendorResponse) :
    (tenacity_generate_reply cfg vendor).2 = 1 := by
  unfold tenacity_generate_reply retryGo
  cases h : generateReplyAttempt cfg (vendor 1) with
  | ok a => rfl
  | error e =>
      have hr := generateReplyAttempt_not_retryable cfg (vendor 1) e h
      simp [hr]

/-- Claim C1: on a vendor call failing with the transient
ServiceUnavailable error, the decorated generate_reply is supposed to
retry; evaluated at this failing input the code performs exactly one
attempt and propagates the translated NetworkError immediately, because
the body translates the vendor exception before the retry predicate can
see it. -/
theorem gemini_transient_error_not_retried :
    tenacity_generate_reply ⟨"key", "gemini-2.0-flash"⟩
        (fun _ => .error (.google ⟨.serviceUnavailable,
            "503 The service is currently unavailable."⟩))
      = (.error (.ai ⟨.networkErr, "Dịch vụ Gemini tạm thời không khả dụng."⟩), 1) := by
  rfl

/-- Claim C4: a successful generate_reply call is a pass-through of the
vendor result: content is the vendor text unchanged, tokens_used the
vendor-reported total (0 when absent), model the configured model name,
and finish_reason stop unless the prompt feedback reports a block
reason, then content_filter. -/
theorem generate_reply_passthrough (cfg : GeminiConfig) (r : VendorResponse) :
    ∃ resp, generateReplyAttempt cfg (.ok r) = .ok resp ∧
      resp.content = r.text ∧
      resp.tokens_used = (match r.usage with | some n => n | none => 0) ∧
      resp.model = cfg.model ∧
      resp.finish_reason = (if r.blockReason then "content_filter" else "stop") := by
  refine ⟨extractResponse cfg r, rfl, rfl, ?_, rfl, rfl⟩
  cases h : r.usage <;> simp [extractResponse, h, Option.getD]

/-- _build_chat_history is the system-role filter followed by the
Gemini format conversion. -/
theorem build_chat_history_eq_filter (l : List ChatMessage) :
    build_chat_history l =
      (l.filter (fun m => !(m.role == MessageRole.system))).map to_gemini_format := by
  induction l with
  | nil => rfl
  | cons m rest ih =>
      by_cases h : m.role = MessageRole.system <;>
        simp [build_chat_history, h, ih, List.filter_cons]

/-- Claim C5: the full message sequence is the persona system message
(the explicit system_prompt when non-empty) when a persona is given,
then the caller history in order, then the prompt as a user message;
the chat history handed to the vendor drops the final user prompt and
every system-role message; assistant maps to the role string model and
user stays user. -/
theorem request_construction_correct (req : GenerationRequest) :
    (req.persona = none →
        get_full_history req = req.history ++ [⟨MessageRole.user, req.prompt⟩]) ∧
    (∀ p, req.persona = some p →
        get_full_history req =
          ⟨MessageRole.system, build_system_message p⟩ ::
            (req.history ++ [⟨MessageRole.user, req.prompt⟩]) ∧
        (p.system_prompt ≠ "" → build_system_message p = p.system_prompt)) ∧
    build_chat_history (get_full_history req).dropLast =
      (req.history.filter (fun m => !(m.role == MessageRole.system))).map to_gemini_format ∧
    (∀ s, to_gemini_format ⟨MessageRole.assistant, s⟩ = ⟨"model", s⟩) ∧
    (∀ s, to_gemini_format ⟨MessageRole.user, s⟩ = ⟨"user", s⟩) := by
  refine ⟨?_, ?_, ?_, fun s => rfl, fun s => rfl⟩
  · intro h
    simp [get_full_history, h]
  · intro p hp
    refine ⟨by simp [get_full_history, hp], fun hne => by simp [build_system_message, hne]⟩
  · cases hp : req.persona with
    | none =>
        have h1 : get_full_history req = req.history ++ [⟨MessageRole.user, req.prompt⟩] := by
          simp [get_full_history, hp]
        rw [h1, List.dropLast_concat, build_chat_history_eq_filter]
    | some p =>
        have h1 : get_full_history req =
            (⟨MessageRole.system, build_system_message p⟩ :: req.history)
              ++ [⟨MessageRole.user, req.prompt⟩] := by
          simp [get_full_history, hp]
        rw [h1, List.dropLast_concat, build_chat_history]
        simp [build_chat_history_eq_filter]

/-- Witness for claim C5 at a concrete request with a persona whose
explicit system_prompt is non-empty. -/
theorem request_construction_correct_witness :
    get_full_history
        ⟨"xin chào", [⟨MessageRole.assistant, "a"⟩],
          some ⟨"Lan", "Thân thiện", "mô tả", "", "", "", "", none, "", "vai diễn"⟩⟩
      = ⟨MessageRole.system,
          build_system_message ⟨"Lan", "Thân thiện", "mô tả", "", "", "", "", none, "", "vai diễn"⟩⟩ ::
          ([⟨MessageRole.assistant, "a"⟩] ++ [⟨MessageRole.user, "xin chào"⟩]) ∧
    build_system_message ⟨"Lan", "Thân thiện", "mô tả", "", "", "", "", none, "", "vai diễn"⟩
      = "vai diễn" := by
  have h := request_construction_correct
    ⟨"xin chào", [⟨MessageRole.assistant, "a"⟩],
      some ⟨"Lan", "Thân thiện", "mô tả", "", "", "", "", none, "", "vai diễn"⟩⟩
  have h2 := h.2.1 ⟨"Lan", "Thân thiện", "mô tả", "", "", "", "", none, "", "vai diễn"⟩ rfl
  exact ⟨h2.1, h2.2 (by decide)⟩

/-! ## Streaming: generate_reply_stream and ChatStreamView.event_stream

A run of the vendor stream is the list of chunk texts the iteration
delivered, followed either by normal completion (with the final
usage_metadata token count when present) or by an exception raised at
that point of the iteration. -/

/-- One run of the vendor streaming call. -/
structure VendorStreamRun where
  texts : List String
  outcome : Option Exc
  usage : Option Nat
  deriving Repr

/-- GeminiService.generate_reply_stream (gemini_service.py lines
255-340): a StreamChunk per delivered chunk with non-empty text, then
on normal completion one final chunk with empty content and the total
token count; an exception is translated (AIServiceError re-raised,
anything else through _handle_error) after the chunks already yielded.
Returns the yielded chunks and the raised error, if any. -/
def generate_reply_stream (run : VendorStreamRun) :
    List StreamChunk × Option AIErr :=
  let yielded := (run.texts.filter (fun t => !(t == ""))).map
    (fun t => ({ content := t, is_final := false, tokens_used := 0 } : StreamChunk))
  match run.outcome with
  | some exc => (yielded, some (excToAIErr exc))
  | none => (yielded ++ [{ content := "", is_final := true, tokens_used := run.usage.getD 0 }], none)

/-- One SSE event of the response body: a data event holding the JSON
of a StreamChunk dictionary, a data event holding the JSON of an
AIServiceError dictionary, or the data: [DONE] marker (the JSON
serialization itself is the standard library and is abstracted). -/
inductive SSEEvent where
  | chunkEvent (c : StreamChunk)
  | errorEvent (d : ErrDict)
  | doneEvent
  deriving DecidableEq, Repr

/-- ChatStreamView.post.event_stream (views.py lines 168-213): one data
event per chunk the generator yields, then data: [DONE]; if the
generator raises an AIServiceError, its to_dict is emitted as a data
event instead and nothing follows. -/
def event_stream (run : VendorStreamRun) : List SSEEvent :=
  match generate_reply_stream run with
  | (cs, none) => cs.map SSEEvent.chunkEvent ++ [SSEEvent.doneEvent]
  | (cs, some e) => cs.map SSEEvent.chunkEvent ++ [SSEEvent.errorEvent (toErrorDict e)]

/-- The SSE body exactly as claim C3 words it: one data event per
vendor chunk with non-empty text, in vendor order, each non-final; then
one final chunk with empty content and the total token count; then the
[DONE] marker; on a mid-stream AIServiceError, the error dictionary as
a data event instead with no [DONE]. -/
def event_stream_spec (run : VendorStreamRun) : List SSEEvent :=
  let dataEvents := (run.texts.filter (fun t => !(t == ""))).map
    (fun t => SSEEvent.chunkEvent { content := t, is_final := false, tokens_used := 0 })
  match run.outcome with
  | none =>
      dataEvents
        ++ [SSEEvent.chunkEvent { content := "", is_final := true, tokens_used := run.usage.getD 0 },
            SSEEvent.doneEvent]
  | some exc => dataEvents ++ [SSEEvent.errorEvent (toErrorDict (excToAIErr exc))]

/-- Claim C3: the streaming response body is a passthrough of the
vendor stream in the exact shape the claim describes. -/
theorem sse_stream_passthrough (run : VendorStreamRun) :
    event_stream run = event_stream_spec run := by
  cases h : run.outcome <;>
    simp [event_stream, generate_reply_stream, event_stream_spec, h]

/-! ## src/ai_services/whisper_service.py and WhisperConfig -/

/-- WhisperConfig (config.py lines 39-70), restricted to the fields the
validation path reads. -/
structure WhisperConfig where
  supported_formats : List String
  max_file_size_mb : Nat
  deriving DecidableEq, Repr

/-- The default WhisperConfig values (config.py lines 47-48): the nine
supported formats and the 25 MB limit. -/
def whisperDefaultConfig : WhisperConfig :=
  ⟨["mp3", "mp4", "mpeg", "mpga", "m4a", "wav", "webm", "ogg", "flac"], 25⟩

/-- The characters after the last dot of the name, none when the name
has no dot: the Python expression rsplit on a dot, last component. -/
def splitExt : List Char → Option (List Char)
  | [] => none
  | c :: rest =>
      match splitExt rest with
      | some e => some e
      | none => if c = '.' then some rest else none

/-- get_audio_format (whisper_service.py lines 51-55): the lower-cased
part after the last dot, empty when there is no dot. -/
def get_audio_format (filename : String) : String :=
  match splitExt filename.toList with
  | some e => String.mk (e.map Char.toLower)
  | none => ""

/-- WhisperConfig.is_supported_format (config.py lines 67-70): the same
extension computation, tested against supported_formats. -/
def is_supported_format (cfg : WhisperConfig) (filename : String) : Bool :=
  cfg.supported_formats.contains
    (match splitExt filename.toList with
     | some e => String.mk (e.map Char.toLower)
     | none => "")

/-- AudioMetadata (whisper_service.py lines 40-48), restricted to the
fields validate_audio_file fills. -/
structure AudioMetadata where
  filename : String
  size_bytes : Nat
  format : String
  deriving DecidableEq, Repr

/-- validate_audio_file (whisper_service.py lines 58-101). The file
bytes are only inspected through len, so the file is modelled by its
size; the exact wording of the raised messages (which interpolate the
size in MB) is abbreviated. Checks, in source order: unsupported
format, size above the limit, empty file. -/
def validate_audio_file (fileSize : Nat) (filename : String)
    (cfg : WhisperConfig) : Except String AudioMetadata :=
  if !(is_supported_format cfg filename) then
    .error ("Unsupported audio format: " ++ get_audio_format filename
        ++ ". Supported formats: " ++ String.intercalate ", " cfg.supported_formats)
  else if fileSize > cfg.max_file_size_mb * 1024 * 1024 then
    .error "Audio file too large"
  else if fileSize == 0 then
    .error "Audio file is empty"
  else
    .ok ⟨filename, fileSize, get_audio_format filename⟩

/-- Whether an Except value is a success. -/
def exceptOk : Except String AudioMetadata → Bool
  | .ok _ => true
  | .error _ => false

/-- WhisperService.transcribe (whisper_service.py lines 320-399)
reaches _make_request, and _make_request posts to the vendor API, only
after validate_audio_file returned normally and the API key check
passed; a validation failure propagates before any request. -/
def transcribe_contacts_api (fileSize : Nat) (filename : String)
    (cfg : WhisperConfig) (hasKey : Bool) : Bool :=
  match validate_audio_file fileSize filename cfg with
  | .error _ => false
  | .ok _ => hasKey

/-- The names whisper_service.py imports from the exceptions module
(whisper_service.py lines 27-32). -/
def whisperImportsFromExceptions : List String :=
  ["AIServiceError", "AIServiceConfigError", "AIServiceRateLimitError",
   "AIServiceTimeoutError"]

/-- A failure of the Whisper HTTP request: an error status with the
response body, or a request timeout. -/
inductive WhisperFailure where
  | httpStatus (code : Nat) (body : String)
  | timeoutExc
  deriving DecidableEq, Repr

/-- The exception-translation switch of WhisperService._make_request
(whisper_service.py lines 300-318): the class name and message of the
exception each failure raises. -/
def whisper_error_raised (f : WhisperFailure) (timeoutSecs : Nat) : String × String :=
  match f with
  | .httpStatus code body =>
      if code == 429 then ("AIServiceRateLimitError", "Rate limit exceeded")
      else if code == 401 then ("AIServiceConfigError", "Invalid OpenAI API key")
      else if code ≥ 500 then ("AIServiceError", "Whisper API server error: " ++ toString code)
      else ("AIServiceError", "Whisper API error (" ++ toString code ++ "): " ++ body)
  | .timeoutExc =>
      ("AIServiceTimeoutError", "Request timed out after " ++ toString timeoutSecs ++ "s")

/-- Claim C6: the translation switch raises AIServiceRateLimitError,
AIServiceConfigError and AIServiceTimeoutError, and whisper_service.py
imports those names from ai_services.exceptions, but the exceptions
module defines none of the three: the filter of the import list against
the defined names leaves exactly these, so loading the module raises
ImportError. -/
theorem whisper_exception_classes_missing :
    whisperImportsFromExceptions.filter
        (fun n => !(exceptionsModuleDefines.contains n))
      = ["AIServiceConfigError", "AIServiceRateLimitError", "AIServiceTimeoutError"] ∧
    (whisper_error_raised (.httpStatus 429 "") 60).1 = "AIServiceRateLimitError" ∧
    (whisper_error_raised (.httpStatus 401 "") 60).1 = "AIServiceConfigError" ∧
    (whisper_error_raised .timeoutExc 60).1 = "AIServiceTimeoutError" ∧
    exceptionsModuleDefines.contains "AIServiceRateLimitError" = false := by
  refine ⟨by decide, rfl, rfl, rfl, by decide⟩

/-- validate_audio_file fails exactly when the format is unsupported,
the size exceeds the configured limit, or the file is empty. -/
theorem exceptOk_validate_eq_false_iff (fileSize : Nat) (filename : String)
    (cfg : WhisperConfig) :
    exceptOk (validate_audio_file fileSize filename cfg) = false ↔
      (is_supported_format cfg filename = false ∨ fileSize = 0 ∨
        fileSize > cfg.max_file_size_mb * 1024 * 1024) := by
  unfold validate_audio_file exceptOk
  by_cases h1 : is_supported_format cfg filename
  · by_cases h2 : fileSize > cfg.max_file_size_mb * 1024 * 1024
    · simp [h1, h2]
    · by_cases h3 : fileSize = 0
      · simp [h1, h2, h3]
      · simp [h1, h2, h3]
  · simp only [Bool.not_eq_true] at h1
    simp [h1]

/-- Claim C7: validate_audio_file fails exactly when the extension is
unsupported, the file is empty, or the size exceeds 25 MB; the
supported-format test is containment of the lower-cased last extension
in the nine formats; on failure the vendor API is never contacted; on
success the returned metadata records the filename, the byte size and
the format. -/
theorem validate_audio_file_correct (fileSize : Nat) (filename : String)
    (hasKey : Bool) :
    (exceptOk (validate_audio_file fileSize filename whisperDefaultConfig) = false ↔
      (is_supported_format whisperDefaultConfig filename = false ∨ fileSize = 0 ∨
        fileSize > 25 * 1024 * 1024)) ∧
    is_supported_format whisperDefaultConfig filename =
      whisperDefaultConfig.supported_formats.contains (get_audio_format filename) ∧
    (exceptOk (validate_audio_file fileSize filename whisperDefaultConfig) = false →
      transcribe_contacts_api fileSize filename whisperDefaultConfig hasKey = false) ∧
    (∀ md, validate_audio_file fileSize filename whisperDefaultConfig = .ok md →
      md = ⟨filename, fileSize, get_audio_format filename⟩) := by
  refine ⟨?_, ?_, ?_, ?_⟩
  · have h := exceptOk_validate_eq_false_iff fileSize filename whisperDefaultConfig
    rw [show whisperDefaultConfig.max_file_size_mb = 25 from rfl] at h
    exact h
  · simp [is_supported_format, get_audio_format]
  · intro h
    revert h
    unfold transcribe_contacts_api
    cases hv : validate_audio_file fileSize filename whisperDefaultConfig <;>
      simp [exceptOk]
  · intro md hmd
    revert hmd
    unfold validate_audio_file
    split
    · intro h; cases h
    · split
      · intro h; cases h
      · split
        · intro h; cases h
        · intro h; cases h; rfl

/-- Witness for claim C7 at a concrete rejected file (a txt upload,
whose validation failure prevents any API contact) and a concrete
accepted file (an upper-case wav name, whose metadata records the
lower-cased format). -/
theorem validate_audio_file_correct_witness :
    transcribe_contacts_api 4096 "notes.txt" whisperDefaultConfig true = false ∧
    ((⟨"hello.WAV", 4096, "wav"⟩ : AudioMetadata)
      = ⟨"hello.WAV", 4096, get_audio_format "hello.WAV"⟩) := by
  have h2 := validate_audio_file_correct 4096 "notes.txt" true
  have h1 := validate_audio_file_correct 4096 "hello.WAV" true
  exact ⟨h2.2.2.1 (by decide), h1.2.2.2 ⟨"hello.WAV", 4096, "wav"⟩ (by rfl)⟩

/-! ## src/conversations: models.py and views.py

The relational state is modelled as plain lists of rows. Row ids are
Nat (the UUIDs only serve as identities). Timestamps are Nat ticks. -/

/-- Session.SessionStatus (conversations/models.py lines 137-141). -/
inductive SessStatus where
  | active
  | completed
  | abandoned
  deriving DecidableEq, Repr

/-- A Session row, restricted to the fields the verified operations
read or write. -/
structure SessionRec where
  id : Nat
  user : Nat
  status : SessStatus
  ended_at : Option Nat
  rating : Option Nat
  feedback : String
  total_messages : Nat
  deriving DecidableEq, Repr

/-- A Message row, restricted to the fields the verified operations
read or write. -/
structure MessageRec where
  session : Nat
  role : String
  content : String
  order : Nat
  deriving DecidableEq, Repr

/-- The messages of one session: Message.objects.filter(session=sid). -/
def messagesOf (msgs : List MessageRec) (sid : Nat) : List MessageRec :=
  msgs.filter (fun m => m.session == sid)

/-- The maximum of a list of Nat, 0 on the empty list. -/
def listMaxNat : List Nat → Nat
  | [] => 0
  | x :: xs => max x (listMaxNat xs)

/-- The order of filter(session).order_by descending .first(), i.e. the
maximum order among the session's messages, none when it has none
(Message.save, conversations/models.py line 329). -/
def lastMessageOrder (msgs : List MessageRec) (sid : Nat) : Option Nat :=
  if (messagesOf msgs sid).isEmpty then none
  else some (listMaxNat ((messagesOf msgs sid).map MessageRec.order))

/-- The order Message.save gives a message (models.py lines 327-330):
kept when already set (Python truthiness: non-zero), otherwise one more
than the last message's order, or 1 when the session has no messages. -/
def assignedOrder (msgs : List MessageRec) (sid : Nat) (o : Nat) : Nat :=
  if o = 0 then
    match lastMessageOrder msgs sid with
    | some k => k + 1
    | none => 1
  else o

/-- Message.save (conversations/models.py lines 326-336): assign the
order, insert the row, then recount the owning session's messages into
its total_messages field. Returns the new message table and the updated
session row. -/
def message_save (msgs : List MessageRec) (sess : SessionRec) (m : MessageRec) :
    List MessageRec × SessionRec :=
  let m' : MessageRec := { m with order := assignedOrder msgs m.session m.order }
  let msgs' := msgs ++ [m']
  (msgs', { sess with total_messages := (messagesOf msgs' sess.id).length })

/-- Every element of a list is at most its listMaxNat. -/
theorem le_listMaxNat (l : List Nat) (x : Nat) (hx : x ∈ l) : x ≤ listMaxNat l := by
  induction l with
  | nil => cases hx
  | cons y ys ih =>
      rcases List.mem_cons.mp hx with h | h
      · subst h; exact le_max_left _ _
      · exact le_trans (ih h) (le_max_right _ _)

/-- Claim C9: after Message.save, the owning session's total_messages
equals the number of message rows of that session (and grows by exactly
one), and a message saved with no explicit order gets order 1 in an
empty session and otherwise an order strictly greater than every
existing order of the session, namely the current maximum plus one. -/
theorem message_save_correct (msgs : List MessageRec) (sess : SessionRec)
    (m : MessageRec) (h : m.session = sess.id) :
    ((message_save msgs sess m).2.total_messages
        = (messagesOf (message_save msgs sess m).1 sess.id).length) ∧
    ((message_save msgs sess m).2.total_messages
        = (messagesOf msgs sess.id).length + 1) ∧
    (m.order = 0 →
      (messagesOf msgs m.session = [] → assignedOrder msgs m.session m.order = 1) ∧
      (∀ k, lastMessageOrder msgs m.session = some k →
          assignedOrder msgs m.session m.order = k + 1) ∧
      (∀ m0 ∈ messagesOf msgs m.session,
          m0.order < assignedOrder msgs m.session m.order)) := by
  refine ⟨rfl, ?_, ?_⟩
  · have hm' : ((⟨m.session, m.role, m.content,
        assignedOrder msgs m.session m.order⟩ : MessageRec).session == sess.id) = true := by
      simp [h]
    simp [message_save, messagesOf, List.filter_append, hm']
  · intro h0
    refine ⟨?_, ?_, ?_⟩
    · intro hempty
      simp [assignedOrder, h0, lastMessageOrder, hempty]
    · intro k hk
      simp [assignedOrder, h0, hk]
    · intro m0 hm0
      have hne : (messagesOf msgs m.session).isEmpty = false := by
        cases hl : messagesOf msgs m.session with
        | nil => rw [hl] at hm0; cases hm0
        | cons a l => simp [List.isEmpty]
      have hbound : m0.order ≤ listMaxNat ((messagesOf msgs m.session).map MessageRec.order) :=
        le_listMaxNat _ _ (List.mem_map_of_mem MessageRec.order hm0)
      have hlast : lastMessageOrder msgs m.session
          = some (listMaxNat ((messagesOf msgs m.session).map MessageRec.order)) := by
        simp [lastMessageOrder, hne]
      have hassigned : assignedOrder msgs m.session m.order
          = listMaxNat ((messagesOf msgs m.session).map MessageRec.order) + 1 := by
        simp [assignedOrder, h0, hlast]
      rw [hassigned]
      omega

/-- Witness for claim C9: saving an order-less message into a session
that already holds orders 1 and 2 gives it order 3 and total 3. -/
theorem message_save_correct_witness :
    ((message_save [⟨5, "user", "a", 1⟩, ⟨5, "assistant", "b", 2⟩]
        ⟨5, 9, SessStatus.active, none, none, "", 2⟩
        ⟨5, "user", "c", 0⟩).2.total_messages
      = (messagesOf [⟨5, "user", "a", 1⟩, ⟨5, "assistant", "b", 2⟩] 5).length + 1) ∧
    assignedOrder [⟨5, "user", "a", 1⟩, ⟨5, "assistant", "b", 2⟩] 5 0 = 2 + 1 := by
  have h := message_save_correct [⟨5, "user", "a", 1⟩, ⟨5, "assistant", "b", 2⟩]
    ⟨5, 9, SessStatus.active, none, none, "", 2⟩ ⟨5, "user", "c", 0⟩ rfl
  exact ⟨h.2.1, (h.2.2 rfl).2.1 2 (by decide)⟩

/-- SessionViewSet.get_queryset (conversations/views.py lines 230-238):
only the sessions whose user is the requester. -/
def session_queryset (sessions : List SessionRec) (u : Nat) : List SessionRec :=
  sessions.filter (fun s => s.user == u)

/-- MessageListView.get_queryset (conversations/views.py lines
401-414): only the messages of the requested session and only when that
session belongs to the requester (the join session__user). -/
def message_queryset (sessions : List SessionRec) (msgs : List MessageRec)
    (sid u : Nat) : List MessageRec :=
  msgs.filter (fun m =>
    m.session == sid && sessions.any (fun s => s.id == m.session && s.user == u))

/-- Claim C8: the session and message querysets of distinct users are
isolated: every session a user sees is their own, and (session ids
being primary keys, hence unique) no session or message visible to one
user is visible to the other. -/
theorem queryset_isolation (sessions : List SessionRec) (msgs : List MessageRec)
    (u1 u2 sid1 sid2 : Nat)
    (hwf : ∀ s1 ∈ sessions, ∀ s2 ∈ sessions, s1.id = s2.id → s1 = s2)
    (hne : u1 ≠ u2) :
    (∀ s ∈ session_queryset sessions u1, s.user = u1) ∧
    (∀ s ∈ session_queryset sessions u1, s ∉ session_queryset sessions u2) ∧
    (∀ m ∈ message_queryset sessions msgs sid1 u1,
        m ∉ message_queryset sessions msgs sid2 u2) := by
  refine ⟨?_, ?_, ?_⟩
  · intro s hs
    have := List.mem_filter.mp hs
    simpa using this.2
  · intro s hs hs2
    have h1 : s.user = u1 := by
      have := List.mem_filter.mp hs
      simpa using this.2
    have h2 : s.user = u2 := by
      have := List.mem_filter.mp hs2
      simpa using this.2
    exact hne (h1 ▸ h2)
  · intro m hm hm2
    have h1 := (List.mem_filter.mp hm).2
    have h2 := (List.mem_filter.mp hm2).2
    simp only [Bool.and_eq_true, List.any_eq_true, beq_iff_eq] at h1 h2
    obtain ⟨-, s1, hs1mem, hs1id, hs1u⟩ := h1
    obtain ⟨-, s2, hs2mem, hs2id, hs2u⟩ := h2
    have heq : s1 = s2 := hwf s1 hs1mem s2 hs2mem (hs1id.trans hs2id.symm)
    exact hne (hs1u ▸ heq ▸ hs2u)

/-- Witness for claim C8 on a concrete two-user database. -/
theorem queryset_isolation_witness :
    ((⟨1, 10, SessStatus.active, none, none, "", 1⟩ : SessionRec).user = 10) ∧
    ((⟨1, 10, SessStatus.active, none, none, "", 1⟩ : SessionRec) ∉
      session_queryset
        [⟨1, 10, SessStatus.active, none, none, "", 1⟩,
         ⟨2, 20, SessStatus.active, none, none, "", 0⟩] 20) ∧
    ((⟨1, "user", "m", 1⟩ : MessageRec) ∉
      message_queryset
        [⟨1, 10, SessStatus.active, none, none, "", 1⟩,
         ⟨2, 20, SessStatus.active, none, none, "", 0⟩]
        [⟨1, "user", "m", 1⟩] 1 20) := by
  have h := queryset_isolation
    [⟨1, 10, SessStatus.active, none, none, "", 1⟩,
     ⟨2, 20, SessStatus.active, none, none, "", 0⟩]
    [⟨1, "user", "m", 1⟩] 10 20 1 1 (by decide) (by decide)
  exact ⟨h.1 _ (by decide), h.2.1 _ (by decide), h.2.2 _ (by decide)⟩

/-- SessionViewSet.end (conversations/views.py lines 291-319): reject a
non-active session with 400; otherwise set status completed, ended_at
to the current time, and the rating and feedback fields that the
request supplied. -/
def end_op (s : SessionRec) (now : Nat) (rating : Option Nat)
    (fb : Option String) : Nat × SessionRec :=
  if s.status ≠ SessStatus.active then (400, s)
  else
    (200, { s with
      status := SessStatus.completed
      ended_at := some now
      rating := match rating with | some r => some r | none => s.rating
      feedback := match fb with | some t => t | none => s.feedback })

/-- SessionViewSet.abandon (conversations/views.py lines 363-386):
reject a non-active session with 400; otherwise set status abandoned
and ended_at to the current time. -/
def abandon_op (s : SessionRec) (now : Nat) : Nat × SessionRec :=
  if s.status ≠ SessStatus.active then (400, s)
  else (200, { s with status := SessStatus.abandoned, ended_at := some now })

/-- SessionViewSet.add_message (conversations/views.py lines 321-349):
reject a non-active session with 400 leaving everything unchanged;
otherwise create the message (MessageCreateSerializer exposes no order
field, so the row is created with the default order 0 and Message.save
assigns it). -/
def add_message_op (s : SessionRec) (msgs : List MessageRec)
    (role content : String) : Nat × SessionRec × List MessageRec :=
  if s.status ≠ SessStatus.active then (400, s, msgs)
  else
    let r := message_save msgs s ⟨s.id, role, content, 0⟩
    (201, r.2, r.1)

/-- SessionViewSet.update with SessionUpdateSerializer
(conversations/views.py line 245, conversations/serializers.py lines
356-377): a partial update applies whichever of status, rating and
feedback the request supplies, with no check of the current status. -/
def update_op (s : SessionRec) (newStatus : Option SessStatus)
    (newRating : Option Nat) (newFeedback : Option String) : SessionRec :=
  { s with
    status := match newStatus with | some st => st | none => s.status
    rating := match newRating with | some r => some r | none => s.rating
    feedback := match newFeedback with | some t => t | none => s.feedback }

/-- Counterexample to claim C10: the session update endpoint accepts a
status field with no transition guard, so a PATCH with status active on
a completed session sets it back to active: a completed session is
both modified by the session API and returned to ACTIVE. -/
theorem completed_session_reactivated :
    ((⟨1, 7, SessStatus.completed, some 100, none, "", 4⟩ : SessionRec).status
        = SessStatus.completed) ∧
    (update_op ⟨1, 7, SessStatus.completed, some 100, none, "", 4⟩
        (some SessStatus.active) none none).status = SessStatus.active := by
  exact ⟨rfl, rfl⟩

/-- Claim C10 as amended: the end, abandon and add_message operations
each reject a non-ACTIVE session with 400 leaving the session and its
messages unchanged; end on an ACTIVE session sets status COMPLETED and
ended_at to the current time, and abandon sets status ABANDONED and
ended_at to the current time. (The generic update endpoint, however,
can still modify a non-ACTIVE session, including setting its status
back to ACTIVE.) -/
theorem session_lifecycle_amended (s : SessionRec) (msgs : List MessageRec)
    (now : Nat) (rating : Option Nat) (fb : Option String)
    (role content : String) :
    (s.status ≠ SessStatus.active →
      end_op s now rating fb = (400, s) ∧
      abandon_op s now = (400, s) ∧
      add_message_op s msgs role content = (400, s, msgs)) ∧
    (s.status = SessStatus.active →
      (end_op s now rating fb).1 = 200 ∧
      (end_op s now rating fb).2.status = SessStatus.completed ∧
      (end_op s now rating fb).2.ended_at = some now ∧
      (abandon_op s now).1 = 200 ∧
      (abandon_op s now).2.status = SessStatus.abandoned ∧
      (abandon_op s now).2.ended_at = some now) := by
  constructor
  · intro h
    refine ⟨?_, ?_, ?_⟩ <;> simp [end_op, abandon_op, add_message_op, h]
  · intro h
    refine ⟨?_, ?_, ?_, ?_, ?_, ?_⟩ <;> simp [end_op, abandon_op, h]

/-- Witness for the amended claim C10 at a concrete abandoned session
(rejected with 400) and a concrete active session (completed with the
timestamp recorded). -/
theorem session_lifecycle_amended_witness :
    end_op ⟨1, 7, SessStatus.abandoned, some 3, none, "", 2⟩ 9 none none
      = (400, ⟨1, 7, SessStatus.abandoned, some 3, none, "", 2⟩) ∧
    (end_op ⟨2, 7, SessStatus.active, none, none, "", 0⟩ 9 none none).2.status
      = SessStatus.completed ∧
    (end_op ⟨2, 7, SessStatus.active, none, none, "", 0⟩ 9 none none).2.ended_at
      = some 9 := by
  have h1 := session_lifecycle_amended ⟨1, 7, SessStatus.abandoned, some 3, none, "", 2⟩
    [] 9 none none "user" "hi"
  have h2 := session_lifecycle_amended ⟨2, 7, SessStatus.active, none, none, "", 0⟩
    [] 9 none none "user" "hi"
  exact ⟨(h1.1 (by decide)).1, (h2.2 rfl).2.1, (h2.2 rfl).2.2.1⟩

end MindxVoice
